import Mathlib

set_option maxRecDepth 8192

/-
Shallow embedding of the document-structuring pipeline:
`document_extractor.py` (regex pattern extractor, CLI),
`ai_extractor.py` (Gemini-backed extractor, CLI) and
`app.py` (Gemini-backed extractor behind a web form).

Pure string processing is embedded directly; the PDF library, the remote
language-model call and the spreadsheet writer are external collaborators
and are modelled by their observable outcomes (page texts, call outcomes,
written/skipped flags).
-/

/-- One extraction record, the dict `{'key': .., 'value': .., 'comments': ..}`
produced by every extraction strategy. -/
structure ExtractionRecord where
  key : String
  value : String
  comments : String
  deriving DecidableEq, Repr

/-! ## A small regex engine

The patterns in `document_extractor.py` only use: literal text, single
character classes, greedy `+` over a class, greedy `?` over a class,
counted repetition `{n}` over a class, concatenation and capture groups.
The engine below implements Python `re.search` semantics for exactly these
constructs: leftmost starting position wins, and at a given position
alternatives are tried in backtracking priority order (greedy first).
-/

/-- Regex fragments: literal, one char of a class, greedy plus / optional
over a class, exact repetition of a class, sequence, capture group. -/
inductive RE where
  | lit : List Char → RE
  | cls : (Char → Bool) → RE
  | plus : (Char → Bool) → RE
  | opt : (Char → Bool) → RE
  | rep : (Char → Bool) → Nat → RE
  | seq : RE → RE → RE
  | grp : Nat → RE → RE

/-- Suffixes of `s` after consuming `k, k-1, ..., 1` characters:
the greedy (longest-first) backtracking order for `+` over a class. -/
def dropsDesc : Nat → List Char → List (List Char)
  | 0, _ => []
  | k+1, s => s.drop (k+1) :: dropsDesc k s

/-- All ways a fragment can match a prefix of the input, in Python
backtracking priority order; each result is (captures, remaining input). -/
def RE.mtch : RE → List Char → List (List (Nat × List Char) × List Char)
  | RE.lit l, s => if l.isPrefixOf s then [([], s.drop l.length)] else []
  | RE.cls p, s =>
      match s with
      | [] => []
      | c :: r => if p c then [([], r)] else []
  | RE.plus p, s => (dropsDesc (s.takeWhile p).length s).map (fun rest => ([], rest))
  | RE.opt p, s =>
      match s with
      | [] => [([], [])]
      | c :: r => if p c then [([], r), ([], c :: r)] else [([], c :: r)]
  | RE.rep p n, s =>
      if (s.take n).length = n && (s.take n).all p then [([], s.drop n)] else []
  | RE.seq a b, s =>
      (a.mtch s).foldr
        (fun pr acc => ((b.mtch pr.2).map (fun pr2 => (pr.1 ++ pr2.1, pr2.2))) ++ acc) []
  | RE.grp i r, s =>
      (r.mtch s).map (fun pr => ((i, s.take (s.length - pr.2.length)) :: pr.1, pr.2))

/-- Best match of `r` against a prefix of `s` (first in priority order),
returning the consumed prefix and the captures. -/
def RE.searchAt (r : RE) (s : List Char) : Option (List Char × List (Nat × List Char)) :=
  match r.mtch s with
  | [] => none
  | pr :: _ => some (s.take (s.length - pr.2.length), pr.1)

/-- `re.search`: try each starting position from the left, first hit wins. -/
def RE.searchList (r : RE) : List Char → Option (List Char × List (Nat × List Char))
  | [] => r.searchAt []
  | c :: t =>
      match r.searchAt (c :: t) with
      | some res => some res
      | none => r.searchList t

/-- A successful `re.search` result: the whole matched text (`group(0)`)
and the numbered capture groups. -/
structure REMatch where
  whole : String
  groups : List (Nat × String)
  deriving DecidableEq, Repr

/-- Python `re.search(pattern, text)`. -/
def reSearch (r : RE) (text : String) : Option REMatch :=
  match r.searchList text.data with
  | none => none
  | some (w, gs) => some ⟨String.mk w, gs.map (fun g => (g.1, String.mk g.2))⟩

/-- `match.group(i)`; `group(0)` is the whole match. -/
def REMatch.group (m : REMatch) (i : Nat) : String :=
  if i = 0 then m.whole else ((m.groups.lookup i).getD "")

/-! ### Character classes used by the patterns -/

/-- Python `\w` (ASCII range; the documents are ASCII). -/
def pyIsWordChar (c : Char) : Bool := c.isAlphanum || c = '_'

/-- Python `\s`. -/
def pyIsSpace (c : Char) : Bool :=
  c = ' ' || c = '\t' || c = '\n' || c = '\x0b' || c = '\x0c' || c = '\r'

/-- `[A-Z]`. -/
def pyIsUpperAZ (c : Char) : Bool := 'A' ≤ c && c ≤ 'Z'

/-- `[\d,]`. -/
def digitOrComma (c : Char) : Bool := c.isDigit || c = ','

/-- `[\d.]`. -/
def digitOrDot (c : Char) : Bool := c.isDigit || c = '.'

/-- Literal regex text. -/
def relit (s : String) : RE := RE.lit s.data

/-- Concatenation of a list of fragments. -/
def reseq (l : List RE) : RE := l.foldr RE.seq (RE.lit [])

/-! ## Dates: `datetime.strptime(s, '%B %d, %Y')` and `strftime('%d-%b-%y')` -/

/-- A parsed Gregorian date as `datetime` validates it. -/
structure PyDate where
  year : Nat
  month : Nat
  day : Nat
  deriving DecidableEq, Repr

/-- Full month names recognised by `%B`. -/
def monthFullNames : List String :=
  ["January", "February", "March", "April", "May", "June",
   "July", "August", "September", "October", "November", "December"]

/-- Abbreviated month names produced by `%b`. -/
def monthAbbrevs : List String :=
  ["Jan", "Feb", "Mar", "Apr", "May", "Jun",
   "Jul", "Aug", "Sep", "Oct", "Nov", "Dec"]

/-- Gregorian leap year. -/
def isLeap (y : Nat) : Bool := (y % 4 = 0 && y % 100 ≠ 0) || y % 400 = 0

/-- Days in a month, as `datetime` validates the day field. -/
def daysInMonth (y m : Nat) : Nat :=
  if m = 2 then (if isLeap y then 29 else 28)
  else if m = 4 || m = 6 || m = 9 || m = 11 then 30
  else 31

/-- Case-insensitive (ASCII) month-name lookup, 1-based result. -/
def lookupMonth : List String → Nat → List Char → Option Nat
  | [], _, _ => none
  | n :: rest, i, s =>
      if n.data.map Char.toLower = s.map Char.toLower then some i
      else lookupMonth rest (i + 1) s

/-- Numeric value of a digit character. -/
def digitVal (c : Char) : Nat := c.toNat - '0'.toNat

/-- `%d`: one or two digits with value 1..31 (two digits preferred, as in
CPython's `(3[01]|[12]\d|0[1-9]|[1-9])`). -/
def parseDay : List Char → Option (Nat × List Char)
  | [] => none
  | [c1] =>
      if c1.isDigit && 1 ≤ digitVal c1 then some (digitVal c1, []) else none
  | c1 :: c2 :: rest =>
      if c1.isDigit && c2.isDigit then
        let v := digitVal c1 * 10 + digitVal c2
        if 1 ≤ v && v ≤ 31 then some (v, rest) else none
      else if c1.isDigit && 1 ≤ digitVal c1 then some (digitVal c1, c2 :: rest)
      else none

/-- Take at most `n` leading digits. -/
def takeDigits : Nat → List Char → (List Char × List Char)
  | 0, s => ([], s)
  | _+1, [] => ([], [])
  | n+1, c :: rest =>
      if c.isDigit then
        let (ds, r) := takeDigits n rest
        (c :: ds, r)
      else ([], c :: rest)

/-- Value of a digit string. -/
def natOfDigits (ds : List Char) : Nat := ds.foldl (fun a c => a * 10 + digitVal c) 0

/-- `%Y`: exactly four digits (CPython compiles `%Y` to `\d\d\d\d`). -/
def parseYear (s : List Char) : Option (Nat × List Char) :=
  let (ds, r) := takeDigits 4 s
  if ds.length = 4 then some (natOfDigits ds, r) else none

/-- Skip one-or-more whitespace (a whitespace run in an strptime format
matches `\s+`). -/
def skipWs1 (s : List Char) : Option (List Char) :=
  let r := s.dropWhile pyIsSpace
  if r.length = s.length then none else some r

/-- `datetime.strptime(s, '%B %d, %Y')`: full month name (case-insensitive),
whitespace, 1-2 digit day, comma, whitespace, up to 4 digit year; the whole
string must be consumed, and `datetime` itself validates `1 <= year` and the
day against the month length. `none` models the raised `ValueError`. -/
def strptime_BdY (s : String) : Option PyDate :=
  let cs := s.data
  let mword := cs.takeWhile Char.isAlpha
  match lookupMonth monthFullNames 1 mword with
  | none => none
  | some m =>
      match skipWs1 (cs.drop mword.length) with
      | none => none
      | some r1 =>
          match parseDay r1 with
          | none => none
          | some (d, r2) =>
              match r2 with
              | ',' :: r3 =>
                  match skipWs1 r3 with
                  | none => none
                  | some r4 =>
                      match parseYear r4 with
                      | none => none
                      | some (y, r5) =>
                          if r5 = [] && 1 ≤ y && d ≤ daysInMonth y m then
                            some ⟨y, m, d⟩
                          else none
              | _ => none

/-- Zero-padded two-digit rendering (`%d`, `%y`). -/
def pad2 (n : Nat) : String :=
  String.mk [Char.ofNat ('0'.toNat + n / 10 % 10), Char.ofNat ('0'.toNat + n % 10)]

/-- `strftime('%d-%b-%y')`. -/
def strftime_dby (d : PyDate) : String :=
  pad2 d.day ++ "-" ++ (monthAbbrevs.getD (d.month - 1) "") ++ "-" ++ pad2 (d.year % 100)

/-! ## Python string helpers used by the rules -/

/-- Worker for `pySplit`: words are maximal non-whitespace runs. -/
def pyWords : List Char → List Char → List String
  | [], acc => if acc = [] then [] else [String.mk acc.reverse]
  | c :: rest, acc =>
      if pyIsSpace c then
        if acc = [] then pyWords rest []
        else String.mk acc.reverse :: pyWords rest []
      else pyWords rest (c :: acc)

/-- Python `str.split()`: split on whitespace runs, no empty words. -/
def pySplit (s : String) : List String := pyWords s.data []

/-- Python `str.strip()`: drop leading and trailing whitespace. -/
def pyStrip (s : String) : String :=
  String.mk (((s.data.dropWhile pyIsSpace).reverse.dropWhile pyIsSpace).reverse)

/-- Python `str.capitalize()`: first character upper-cased, rest lower-cased. -/
def pyCapitalize (s : String) : String :=
  match s.data with
  | [] => ""
  | c :: rest => String.mk (c.toUpper :: rest.map Char.toLower)

/-- Replace all non-overlapping occurrences, left to right, fuelled by the
input length (each step consumes at least one character). -/
def listReplaceFuel (pat repl : List Char) : Nat → List Char → List Char
  | _, [] => []
  | 0, s => s
  | fuel+1, c :: rest =>
      if pat ≠ [] && pat.isPrefixOf (c :: rest) then
        repl ++ listReplaceFuel pat repl fuel ((c :: rest).drop pat.length)
      else c :: listReplaceFuel pat repl fuel rest

/-- Python `str.replace(pat, repl)` for nonempty `pat` (all occurrences). -/
def pyReplace (s pat repl : String) : String :=
  if pat = "" then s
  else String.mk (listReplaceFuel pat.data repl.data s.data.length s.data)

/-! ## The pattern catalog of `DocumentExtractor`

Each definition transcribes one `re.search` pattern from
`document_extractor.py`, in source order. -/

/-- `(\w+\s+\w+)\s+was born` -/
def nameRE : RE :=
  reseq [RE.grp 1 (reseq [RE.plus pyIsWordChar, RE.plus pyIsSpace, RE.plus pyIsWordChar]),
         RE.plus pyIsSpace, relit "was born"]

/-- `\w+ \d+, \d{4}` — the date shape shared by all date-bearing patterns. -/
def dateBodyRE : RE :=
  reseq [RE.plus pyIsWordChar, relit " ", RE.plus Char.isDigit, relit ", ",
         RE.rep Char.isDigit 4]

/-- `born on (\w+ \d+, \d{4})` -/
def dobRE : RE := reseq [relit "born on ", RE.grp 1 dateBodyRE]

/-- `born on [^,]+, in (\w+), (\w+)` -/
def birthRE : RE :=
  reseq [relit "born on ", RE.plus (fun c => c ≠ ','), relit ", in ",
         RE.grp 1 (RE.plus pyIsWordChar), relit ", ", RE.grp 2 (RE.plus pyIsWordChar)]

/-- Context literal searched for the birth city/state comments. -/
def birthContextRE : RE :=
  relit "Born and raised in the Pink City of India, his birthplace provides valuable regional profiling context"

/-- `making him (\d+) years old as of (\d{4})` -/
def ageRE : RE :=
  reseq [relit "making him ", RE.grp 1 (RE.plus Char.isDigit),
         relit " years old as of ", RE.grp 2 (RE.rep Char.isDigit 4)]

/-- `His birthdate is formatted as[^,]+, while his age serves as a key demographic marker for analytical purposes` -/
def ageContextRE : RE :=
  reseq [relit "His birthdate is formatted as", RE.plus (fun c => c ≠ ','),
         relit ", while his age serves as a key demographic marker for analytical purposes"]

/-- `his ([A-Z]\+?) blood group` -/
def bloodRE : RE :=
  reseq [relit "his ", RE.grp 1 (reseq [RE.cls pyIsUpperAZ, RE.opt (fun c => c = '+')]),
         relit " blood group"]

/-- `his [A-Z]\+? blood group is noted for emergency contact purposes` -/
def bloodContextRE : RE :=
  reseq [relit "his ", RE.cls pyIsUpperAZ, RE.opt (fun c => c = '+'),
         relit " blood group is noted for emergency contact purposes"]

/-- `As an (\w+) national` -/
def natRE : RE := reseq [relit "As an ", RE.grp 1 (RE.plus pyIsWordChar), relit " national"]

/-- The citizenship context literal (searched verbatim). -/
def natContextText : String :=
  "his citizenship status is important for understanding his work authorization and visa requirements across different employment opportunities"

/-- Replacement text for the citizenship comment. -/
def natContextReplacement : String :=
  "Citizenship status is important for understanding his work authorization and visa requirements across different employment opportunities."

/-- `professional journey began on (\w+ \d+, \d{4}), when he joined his first company as a ([^w]+) with an annual salary of ([\d,]+) INR` -/
def firstJobRE : RE :=
  reseq [relit "professional journey began on ", RE.grp 1 dateBodyRE,
         relit ", when he joined his first company as a ",
         RE.grp 2 (RE.plus (fun c => c ≠ 'w')),
         relit " with an annual salary of ", RE.grp 3 (RE.plus digitOrComma), relit " INR"]

/-- `his current role at ([^b]+) beginning` -/
def currentOrgRE : RE :=
  reseq [relit "his current role at ", RE.grp 1 (RE.plus (fun c => c ≠ 'b')), relit " beginning"]

/-- `beginning on (\w+ \d+, \d{4})` -/
def currentJoinRE : RE := reseq [relit "beginning on ", RE.grp 1 dateBodyRE]

/-- `where he serves as a ([^e]+) earning` -/
def currentDesigRE : RE :=
  reseq [relit "where he serves as a ", RE.grp 1 (RE.plus (fun c => c ≠ 'e')), relit " earning"]

/-- `earning ([\d,]+) INR annually` -/
def currentSalRE : RE :=
  reseq [relit "earning ", RE.grp 1 (RE.plus digitOrComma), relit " INR annually"]

/-- `This salary progression from ... eight- ?fold increase over his twelve-year career span` -/
def salaryContextRE : RE :=
  reseq [relit "This salary progression from his starting compensation to his current peak salary of 2,800,000 INR represents a substantial eight-",
         RE.opt (fun c => c = ' '), relit "fold increase over his twelve-year career span"]

/-- `he worked at ([^f]+) from` -/
def prevOrgRE : RE :=
  reseq [relit "he worked at ", RE.grp 1 (RE.plus (fun c => c ≠ 'f')), relit " from"]

/-- `from (\w+ \d+, \d{4}), to` -/
def prevJoinRE : RE := reseq [relit "from ", RE.grp 1 dateBodyRE, relit ", to"]

/-- `from [^,]+, to (\d{4})` -/
def prevEndRE : RE :=
  reseq [relit "from ", RE.plus (fun c => c ≠ ','), relit ", to ",
         RE.grp 1 (RE.rep Char.isDigit 4)]

/-- `starting as a ([^a]+) and earning a promotion` -/
def prevDesigRE : RE :=
  reseq [relit "starting as a ", RE.grp 1 (RE.plus (fun c => c ≠ 'a')),
         relit " and earning a promotion"]

/-- `high school education at ([^,]+), Jaipur` -/
def hsRE : RE :=
  reseq [relit "high school education at ", RE.grp 1 (RE.plus (fun c => c ≠ ',')),
         relit ", Jaipur"]

/-- `12th standard in (\d{4})` -/
def year12RE : RE := reseq [relit "12th standard in ", RE.grp 1 (RE.rep Char.isDigit 4)]

/-- `achieving an outstanding ([\d.]+)% overall score` -/
def score12RE : RE :=
  reseq [relit "achieving an outstanding ", RE.grp 1 (RE.plus digitOrDot),
         relit "% overall score"]

/-- `He pursued his (B\.Tech[^a]+) at` -/
def ugDegreeRE : RE :=
  reseq [relit "He pursued his ",
         RE.grp 1 (reseq [relit "B.Tech", RE.plus (fun c => c ≠ 'a')]), relit " at"]

/-- `at the prestigious ([^,]+), graduating` -/
def ugCollegeRE : RE :=
  reseq [relit "at the prestigious ", RE.grp 1 (RE.plus (fun c => c ≠ ',')),
         relit ", graduating"]

/-- `graduating with honors in (\d{4})` -/
def ugYearRE : RE :=
  reseq [relit "graduating with honors in ", RE.grp 1 (RE.rep Char.isDigit 4)]

/-- `with a CGPA of ([\d.]+) on a 10-point scale` -/
def ugCgpaRE : RE :=
  reseq [relit "with a CGPA of ", RE.grp 1 (RE.plus digitOrDot),
         relit " on a 10-point scale"]

/-- `earned his (M\.Tech[^i]+) in` -/
def gradDegreeRE : RE :=
  reseq [relit "earned his ",
         RE.grp 1 (reseq [relit "M.Tech", RE.plus (fun c => c ≠ 'i')]), relit " in"]

/-- `His academic excellence continued at ([^,]+), where he earned` -/
def gradCollegeRE : RE :=
  reseq [relit "His academic excellence continued at ",
         RE.grp 1 (RE.plus (fun c => c ≠ ',')), relit ", where he earned"]

/-- `Data Science in (\d{4})` -/
def gradYearRE : RE := reseq [relit "Data Science in ", RE.grp 1 (RE.rep Char.isDigit 4)]

/-- `achieving an exceptional CGPA of ([\d.]+) and scoring (\d+) out of (\d+)` -/
def gradCgpaRE : RE :=
  reseq [relit "achieving an exceptional CGPA of ", RE.grp 1 (RE.plus digitOrDot),
         relit " and scoring ", RE.grp 2 (RE.plus Char.isDigit),
         relit " out of ", RE.grp 3 (RE.plus Char.isDigit)]

/-- `his Project Management Professional certification, obtained in (\d{4}), was achieved with an "([^"]+)" rating` -/
def pmpRE : RE :=
  reseq [relit "his Project Management Professional certification, obtained in ",
         RE.grp 1 (RE.rep Char.isDigit 4),
         relit ", was achieved with an \"",
         RE.grp 2 (RE.plus (fun c => c ≠ Char.ofNat 34)),
         relit "\" rating"]

/-- `his SAFe Agilist certification earned him an outstanding (\d+)% score` -/
def safeRE : RE :=
  reseq [relit "his SAFe Agilist certification earned him an outstanding ",
         RE.grp 1 (RE.plus Char.isDigit), relit "% score"]

/-! ## `DocumentExtractor` rule functions

One function per commented rule block of `document_extractor.py`, in source
order.  Only the date-bearing rules can raise: `datetime.strptime` is not
wrapped in any handler, so its `ValueError` propagates; this is modelled by
`Except String`. -/

/-- The `ValueError` raised by `datetime.strptime` on non-conforming input. -/
def strptimeError : String := "ValueError: time data does not match format"

/-- Rule "Extract Name" (lines 44-58). -/
def nameRule (text : String) : List ExtractionRecord :=
  match reSearch nameRE text with
  | none => []
  | some m =>
      let full_name := m.group 1
      let names := pySplit full_name
      [⟨"First Name", names.getD 0 "", ""⟩,
       ⟨"Last Name", if names.length > 1 then names.getD 1 "" else "", ""⟩]

/-- Rule "Extract Date of Birth" (lines 60-69). -/
def dobRule (text : String) : Except String (List ExtractionRecord) :=
  match reSearch dobRE text with
  | none => Except.ok []
  | some m =>
      match strptime_BdY (m.group 1) with
      | none => Except.error strptimeError
      | some d => Except.ok [⟨"Date of Birth", strftime_dby d, ""⟩]

/-- Rule "Extract Birth City and State" (lines 71-90). -/
def birthRule (text : String) : List ExtractionRecord :=
  match reSearch birthRE text with
  | none => []
  | some m =>
      let city_comment :=
        match reSearch birthContextRE text with
        | some cm => cm.group 0
        | none => ""
      [⟨"Birth City", m.group 1, city_comment⟩,
       ⟨"Birth State", m.group 2, city_comment⟩]

/-- Rule "Extract Age" (lines 92-101). -/
def ageRule (text : String) : List ExtractionRecord :=
  match reSearch ageRE text with
  | none => []
  | some m =>
      let age_comment :=
        match reSearch ageContextRE text with
        | some cm => cm.group 0
        | none => ""
      [⟨"Age", m.group 1 ++ " years", age_comment⟩]

/-- Rule "Extract Blood Group" (lines 103-111). -/
def bloodRule (text : String) : List ExtractionRecord :=
  match reSearch bloodRE text with
  | none => []
  | some m =>
      let blood_comment :=
        match reSearch bloodContextRE text with
        | some cm =>
            pyCapitalize (pyReplace (cm.group 0) "his O+ blood group is noted for " "")
        | none => ""
      [⟨"Blood Group", m.group 1, blood_comment⟩]

/-- Rule "Extract Nationality" (lines 113-121). -/
def natRule (text : String) : List ExtractionRecord :=
  match reSearch natRE text with
  | none => []
  | some m =>
      let nat_comment :=
        match reSearch (relit natContextText) text with
        | some cm => pyReplace (cm.group 0) natContextText natContextReplacement
        | none => ""
      [⟨"Nationality", m.group 1, nat_comment⟩]

/-- `DocumentExtractor.extract_personal_info` (lines 39-123): the six rules
in source order; only the date-of-birth rule can raise. -/
def extract_personal_info (text : String) : Except String (List ExtractionRecord) :=
  match dobRule text with
  | Except.error e => Except.error e
  | Except.ok dobData =>
      Except.ok (nameRule text ++ dobData ++ birthRule text ++ ageRule text ++
                 bloodRule text ++ natRule text)

/-- Rule "First professional role" (lines 130-153). -/
def firstJobRule (text : String) : Except String (List ExtractionRecord) :=
  match reSearch firstJobRE text with
  | none => Except.ok []
  | some m =>
      match strptime_BdY (m.group 1) with
      | none => Except.error strptimeError
      | some d =>
          Except.ok
            [⟨"Joining Date of first professional role", strftime_dby d, ""⟩,
             ⟨"Designation of first professional role", pyStrip (m.group 2), ""⟩,
             ⟨"Salary of first professional role", pyReplace (m.group 3) "," "", ""⟩,
             ⟨"Salary currency of first professional role", "INR", ""⟩]

/-- Rule "Current Organization" (lines 155-162). -/
def currentOrgRule (text : String) : List ExtractionRecord :=
  match reSearch currentOrgRE text with
  | none => []
  | some m => [⟨"Current Organization", pyStrip (m.group 1), ""⟩]

/-- Rule "Current Joining Date" (lines 164-172). -/
def currentJoinRule (text : String) : Except String (List ExtractionRecord) :=
  match reSearch currentJoinRE text with
  | none => Except.ok []
  | some m =>
      match strptime_BdY (m.group 1) with
      | none => Except.error strptimeError
      | some d => Except.ok [⟨"Current Joining Date", strftime_dby d, ""⟩]

/-- Rule "Current Designation" (lines 174-181). -/
def currentDesigRule (text : String) : List ExtractionRecord :=
  match reSearch currentDesigRE text with
  | none => []
  | some m => [⟨"Current Designation", pyStrip (m.group 1), ""⟩]

/-- Rule "Current Salary" (lines 183-196). -/
def currentSalRule (text : String) : List ExtractionRecord :=
  match reSearch currentSalRE text with
  | none => []
  | some m =>
      let salary_comment :=
        match reSearch salaryContextRE text with
        | some cm => cm.group 0
        | none => ""
      [⟨"Current Salary", pyReplace (m.group 1) "," "", salary_comment⟩,
       ⟨"Current Salary Currency", "INR", ""⟩]

/-- Rule "Previous Organization" (lines 198-205). -/
def prevOrgRule (text : String) : List ExtractionRecord :=
  match reSearch prevOrgRE text with
  | none => []
  | some m => [⟨"Previous Organization", pyStrip (m.group 1), ""⟩]

/-- Rule "Previous Joining Date" (lines 207-215). -/
def prevJoinRule (text : String) : Except String (List ExtractionRecord) :=
  match reSearch prevJoinRE text with
  | none => Except.ok []
  | some m =>
      match strptime_BdY (m.group 1) with
      | none => Except.error strptimeError
      | some d => Except.ok [⟨"Previous Joining Date", strftime_dby d, ""⟩]

/-- Rule "Previous end year" (lines 217-224). -/
def prevEndRule (text : String) : List ExtractionRecord :=
  match reSearch prevEndRE text with
  | none => []
  | some m => [⟨"Previous end year", m.group 1, ""⟩]

/-- Rule "Previous Starting Designation" (lines 226-234). -/
def prevDesigRule (text : String) : List ExtractionRecord :=
  match reSearch prevDesigRE text with
  | none => []
  | some m => [⟨"Previous Starting Designation", pyStrip (m.group 1), "Promoted in 2019"⟩]

/-- `DocumentExtractor.extract_professional_info` (lines 125-236): the rules
in source order; the three date-bearing rules can raise, and the first raise
wins (the rules run sequentially). -/
def extract_professional_info (text : String) : Except String (List ExtractionRecord) :=
  match firstJobRule text with
  | Except.error e => Except.error e
  | Except.ok firstJobData =>
      match currentJoinRule text with
      | Except.error e => Except.error e
      | Except.ok currentJoinData =>
          match prevJoinRule text with
          | Except.error e => Except.error e
          | Except.ok prevJoinData =>
              Except.ok
                (firstJobData ++ currentOrgRule text ++ currentJoinData ++
                 currentDesigRule text ++ currentSalRule text ++ prevOrgRule text ++
                 prevJoinData ++ prevEndRule text ++ prevDesigRule text)

/-- Rule "High School" (lines 243-251). -/
def hsRule (text : String) : List ExtractionRecord :=
  match reSearch hsRE text with
  | none => []
  | some m =>
      [⟨"High School", pyStrip (m.group 1),
        "His core subjects included Mathematics, Physics, Chemistry, and Computer Science, demonstrating his early aptitude for technical disciplines."⟩]

/-- Rule "12th standard pass out year" (lines 253-260). -/
def year12Rule (text : String) : List ExtractionRecord :=
  match reSearch year12RE text with
  | none => []
  | some m => [⟨"12th standard pass out year", m.group 1, "Outstanding achievement"⟩]

/-- Rule "12th overall board score" (lines 262-269). -/
def score12Rule (text : String) : List ExtractionRecord :=
  match reSearch score12RE text with
  | none => []
  | some m => [⟨"12th overall board score", m.group 1 ++ "%", ""⟩]

/-- Rule "Undergraduate degree" (lines 271-278). -/
def ugDegreeRule (text : String) : List ExtractionRecord :=
  match reSearch ugDegreeRE text with
  | none => []
  | some m => [⟨"Undergraduate degree", pyStrip (m.group 1), ""⟩]

/-- Rule "Undergraduate college" (lines 280-287). -/
def ugCollegeRule (text : String) : List ExtractionRecord :=
  match reSearch ugCollegeRE text with
  | none => []
  | some m => [⟨"Undergraduate college", pyStrip (m.group 1), ""⟩]

/-- Rule "Undergraduate year" (lines 289-297). -/
def ugYearRule (text : String) : List ExtractionRecord :=
  match reSearch ugYearRE text with
  | none => []
  | some m =>
      [⟨"Undergraduate year", m.group 1,
        "Graduating with honors and ranking 15th among 120 students in his class."⟩]

/-- Rule "Undergraduate CGPA" (lines 299-306). -/
def ugCgpaRule (text : String) : List ExtractionRecord :=
  match reSearch ugCgpaRE text with
  | none => []
  | some m => [⟨"Undergraduate CGPA", m.group 1, "On a 10-point scale"⟩]

/-- Rule "Graduation degree (Masters)" (lines 308-315). -/
def gradDegreeRule (text : String) : List ExtractionRecord :=
  match reSearch gradDegreeRE text with
  | none => []
  | some m => [⟨"Graduation degree", pyStrip (m.group 1), ""⟩]

/-- Rule "Graduation college" (lines 317-324). -/
def gradCollegeRule (text : String) : List ExtractionRecord :=
  match reSearch gradCollegeRE text with
  | none => []
  | some m =>
      [⟨"Graduation college", pyStrip (m.group 1),
        "Continued academic excellence at IIT Bombay"⟩]

/-- Rule "Graduation year" (lines 326-333). -/
def gradYearRule (text : String) : List ExtractionRecord :=
  match reSearch gradYearRE text with
  | none => []
  | some m => [⟨"Graduation year", m.group 1, ""⟩]

/-- Rule "Graduation CGPA" (lines 335-343). -/
def gradCgpaRule (text : String) : List ExtractionRecord :=
  match reSearch gradCgpaRE text with
  | none => []
  | some m =>
      [⟨"Graduation CGPA", m.group 1,
        "Considered exceptional and scoring 95 out of 100 for his final year thesis project"⟩]

/-- `DocumentExtractor.extract_education_info` (lines 238-345): all rules are
pure (no date parsing). -/
def extract_education_info (text : String) : List ExtractionRecord :=
  hsRule text ++ year12Rule text ++ score12Rule text ++ ugDegreeRule text ++
  ugCollegeRule text ++ ugYearRule text ++ ugCgpaRule text ++ gradDegreeRule text ++
  gradCollegeRule text ++ gradYearRule text ++ gradCgpaRule text

/-- The fixed certification context (line 352). -/
def cert_context : String :=
  "Vijay\x27s commitment to continuous learning is evident through his impressive certification scores. He passed the AWS Solutions Architect exam in 2019 with a score of 920 out of 1000. Pursued in the year 2020 with 875 points."

/-- `DocumentExtractor.extract_certifications` (lines 347-388): two
unconditional fixture records, then two pattern-derived ones. -/
def extract_certifications (text : String) : List ExtractionRecord :=
  [⟨"Certifications 1", "AWS Solutions Architect", cert_context⟩,
   ⟨"Certifications 2", "Azure Data Engineer", cert_context⟩]
  ++ (match reSearch pmpRE text with
      | none => []
      | some m =>
          [⟨"Certifications 3", "Project Management Professional certification",
            "Obtained in " ++ m.group 1 ++ ", was achieved with an \"" ++ m.group 2 ++
            "\" rating from PMI. These certifications complement his practical experience and demonstrate his expertise across multiple technology platforms."⟩])
  ++ (match reSearch safeRE text with
      | none => []
      | some m =>
          [⟨"Certifications 4", "SAFe Agilist",
            "Earned him an outstanding " ++ m.group 1 ++
            "% score. These certifications complement his practical experience and demonstrate his expertise across multiple technology platforms."⟩])

/-- The fixed technical-proficiency context (line 395). -/
def proficiency_context : String :=
  "In terms of technical proficiency, Vijay rates himself highly across various skills, with SQL expertise at a perfect 10 out of 10, reflecting his daily usage since 2012. His Python proficiency scores 9 out of 10, backed by over seven years of practical experience and demonstrate his expertise across multiple technology platforms."

/-- `DocumentExtractor.extract_technical_proficiency` (lines 390-403): one
unconditional fixture record. -/
def extract_technical_proficiency (_text : String) : List ExtractionRecord :=
  [⟨"Technical Proficiency", "", proficiency_context⟩]

/-! ## Record Table Builder and pipelines -/

/-- The four-column table of numbered records (a pandas `DataFrame` whose
rows are the `#` value paired with the record). -/
structure RecordTable where
  cols : List String
  rows : List (Nat × ExtractionRecord)
  deriving DecidableEq, Repr

/-- `range(n, n + len(records))` zipped with the records:
models `df.insert(0, '#', range(1, len(df) + 1))` for `n = 1`. -/
def numberRows : Nat → List ExtractionRecord → List (Nat × ExtractionRecord)
  | _, [] => []
  | n, r :: rest => (n, r) :: numberRows (n + 1) rest

/-- The pandas `ValueError` raised when assigning 4 column names to a frame
that does not have 4 columns. -/
def pandasLenMismatch : String := "ValueError: Length mismatch"

/-- The table-building tail of `DocumentExtractor.process_document`
(lines 421-428): `pd.DataFrame(all_data)` has columns
`key, value, comments` when the list is nonempty and no columns when it is
empty; `df.insert(0, '#', ...)` prepends the sequence column; assigning
`df.columns = ['#', 'Key', 'Value', 'Comments']` raises unless the frame has
exactly 4 columns. -/
def doc_buildTable (records : List ExtractionRecord) : Except String RecordTable :=
  let cols0 : List String := if records.isEmpty then [] else ["key", "value", "comments"]
  let cols1 := "#" :: cols0
  if cols1.length = 4 then
    Except.ok ⟨["#", "Key", "Value", "Comments"], numberRows 1 records⟩
  else Except.error pandasLenMismatch

/-- The table-building tail of the AI variants (`ai_extractor.py` lines
138-145, `app.py` lines 126-133): the renumbering and renaming run only
under `if not df.empty`, so an empty record list yields an empty frame with
no columns. -/
def ai_buildTable (records : List ExtractionRecord) : RecordTable :=
  if records.isEmpty then ⟨[], []⟩
  else ⟨["#", "Key", "Value", "Comments"], numberRows 1 records⟩

/-- `DocumentExtractor.process_document` (lines 405-428) applied to the text
the reader produced: concatenates the five section lists in source order and
builds the table; a `ValueError` from any date rule or from the column
assignment propagates. -/
def doc_process_document (text : String) : Except String RecordTable :=
  match extract_personal_info text with
  | Except.error e => Except.error e
  | Except.ok personal_data =>
      match extract_professional_info text with
      | Except.error e => Except.error e
      | Except.ok professional_data =>
          doc_buildTable
            (personal_data ++ professional_data ++ extract_education_info text ++
             extract_certifications text ++ extract_technical_proficiency text)

/-! ## Text Reader

The PDF library is external: a run is modelled by the list of per-page
`page.extract_text()` results (empty string for a page with no extractable
text), or `none` when opening/reading raises.  The second component records
whether the failure handler printed its error message. -/

/-- `DocumentExtractor.extract_text_from_pdf` (lines 25-37):
`text += page.extract_text()` — pages are concatenated with no separator;
on any exception the handler reports and returns `""`. -/
def doc_extract_text_from_pdf : Option (List String) → String × Bool
  | none => ("", true)
  | some pages => (pages.foldl (fun text p => text ++ p) "", false)

/-- `AIDocumentExtractor.extract_text_from_pdf` (`ai_extractor.py` lines
34-49, identically `app.py` lines 30-45): `if page_text: text += page_text + "\n"`;
on any exception the handler reports and returns `""`. -/
def ai_extract_text_from_pdf : Option (List String) → String × Bool
  | none => ("", true)
  | some pages =>
      (pages.foldl (fun text p => if p ≠ "" then text ++ p ++ "\n" else text) "", false)

/-- The page-joining behaviour the spec describes: each page's text in page
order with a newline appended after each page, pages yielding no text
contributing nothing.  (Spec-side definition, for refinement comparison.) -/
def specPageConcat : List String → String
  | [] => ""
  | p :: rest => (if p ≠ "" then p ++ "\n" else "") ++ specPageConcat rest

/-- Plain concatenation of the page texts in page order with no separator.
(Spec-side definition, for refinement comparison.) -/
def specDirectConcat : List String → String
  | [] => ""
  | p :: rest => p ++ specDirectConcat rest

/-! ## Model-Backed Extractor

The remote call is external; one invocation of `extract_with_gemini` is
modelled by the outcome of its two `try` blocks: client construction can
raise, and otherwise the single `generate_content` call either raises
`APIError`, returns a body that `json.loads` rejects, raises some other
exception, or yields the parsed record list.  Each handler prints and
returns `[]`; there is no loop, so at most one remote call happens. -/

/-- Outcome of one model-backed extraction attempt. -/
inductive GeminiOutcome where
  | clientFail : String → GeminiOutcome
  | apiError : String → GeminiOutcome
  | jsonError : String → GeminiOutcome
  | otherError : String → GeminiOutcome
  | success : List ExtractionRecord → GeminiOutcome
  deriving DecidableEq, Repr

/-- Did the attempt end in one of the three handled failure modes? -/
def GeminiOutcome.isFailure : GeminiOutcome → Bool
  | .success _ => false
  | _ => true

/-- What one run of `extract_with_gemini` produces: the record list, how
many remote calls were made, and the reported error, if any. -/
structure GeminiResult where
  records : List ExtractionRecord
  remoteCalls : Nat
  errorReport : Option String
  deriving DecidableEq, Repr

/-- `AIDocumentExtractor.extract_with_gemini` (`ai_extractor.py` lines
51-126): each `except` branch returns `[]` after reporting; client
construction happens before any remote call. -/
def extract_with_gemini : GeminiOutcome → GeminiResult
  | .clientFail e => ⟨[], 0, some ("Error initializing Gemini client. Details: " ++ e)⟩
  | .apiError e => ⟨[], 1, some ("Error with Gemini API: " ++ e)⟩
  | .jsonError e => ⟨[], 1, some ("Error decoding JSON response from Gemini: " ++ e)⟩
  | .otherError e => ⟨[], 1, some ("An unexpected error occurred during the API call: " ++ e)⟩
  | .success rs => ⟨rs, 1, none⟩

/-- `AIDocumentExtractor.rule_based_extraction` (`ai_extractor.py` lines
147-149): the fallback always returns the empty list. -/
def rule_based_extraction (_text : String) : List ExtractionRecord := []

/-- `AIDocumentExtractor.process_document` (`ai_extractor.py` lines
128-145): `if self.use_ai:` — the flag alone selects the strategy; the text
is not consulted.  Returns the built table and the number of remote calls
made. -/
def ai_process_document (use_ai : Bool) (text : String) (o : GeminiOutcome) :
    RecordTable × Nat :=
  if use_ai then
    let gr := extract_with_gemini o
    (ai_buildTable gr.records, gr.remoteCalls)
  else
    (ai_buildTable (rule_based_extraction text), 0)

/-- `AIDocumentExtractor.process_document` in `app.py` (lines 117-133):
`if self.use_ai and self.text_content:` — the remote path is entered only
when the flag is set and the text is nonempty. -/
def app_process_document (use_ai : Bool) (text : String) (o : GeminiOutcome) :
    RecordTable × Nat :=
  if use_ai && text ≠ "" then
    let gr := extract_with_gemini o
    (ai_buildTable gr.records, gr.remoteCalls)
  else
    (ai_buildTable ([] : List ExtractionRecord), 0)

/-! ## Memoization layer (`app.py` lines 47-49)

`extract_with_gemini` is decorated with `@st.cache_data` and its only
parameter is `_self`.  Streamlit's documented cache semantics: the cache is
keyed by the hash of the function's parameters, and parameters whose names
begin with an underscore are excluded from the key.  Hence the key here is
constant — the input text (`_self.text_content`) never enters the key.  The
model takes the underlying call as a function of the text, the current
cache cell, and the text of this run. -/

/-- One cached invocation: on a hit the stored records are returned
regardless of the current text; on a miss the call runs and is stored. -/
def cached_extract_with_gemini (gemini : String → List ExtractionRecord)
    (cache : Option (List ExtractionRecord)) (text : String) :
    List ExtractionRecord × Option (List ExtractionRecord) :=
  match cache with
  | some r => (r, some r)
  | none =>
      let r := gemini text
      (r, some r)

/-! ## Exporter -/

/-- What an export attempt did: whether a file (or byte buffer) was written
and whether "no data extracted" was reported instead. -/
structure SaveResult where
  fileWritten : Bool
  reportedNoData : Bool
  deriving DecidableEq, Repr

/-- The write step of `DocumentExtractor.save_to_excel` (lines 430-435):
`df.to_excel(output_path, index=False)` with no emptiness guard — every
table, including an empty one, is written. -/
def doc_export_step (_df : RecordTable) : SaveResult := ⟨true, false⟩

/-- The write step of `AIDocumentExtractor.save_to_excel` (`ai_extractor.py`
lines 151-179): `if df.empty: print("No data extracted. Skipping Excel
save."); return` — only a non-empty table is written. -/
def ai_export_step (df : RecordTable) : SaveResult :=
  if df.rows.isEmpty then ⟨false, true⟩ else ⟨true, false⟩

/-! ## Concrete inputs used by the claims -/

/-- The spec's example sentence. -/
def vijaySentence : String :=
  "Vijay Kumar was born on March 15, 1989, in Jaipur, Rajasthan"

/-- A document on which the first-professional-role pattern matches with a
non-conforming date. -/
def firstJobBadDateText : String :=
  "professional journey began on Foo 1, 2010, when he joined his first company as a Dev with an annual salary of 100 INR"

/-- Row count of a pipeline result, when it did not raise. -/
def rowCountOf : Except String RecordTable → Option Nat
  | Except.ok t => some t.rows.length
  | Except.error _ => none

/-- The remote call as a function of the input text (abstract stand-in used
to exhibit the cache behaviour). -/
def gTest : String → List ExtractionRecord := fun t => [⟨"Document", t, ""⟩]

/-- An empty four-column table. -/
def c8EmptyTable : RecordTable := ⟨["#", "Key", "Value", "Comments"], []⟩

/-- A one-row table. -/
def c8OneTable : RecordTable := ⟨["#", "Key", "Value", "Comments"], [(1, ⟨"k", "v", ""⟩)]⟩

/-- The table the pattern pipeline builds from the empty document text. -/
def c8FixtureTable : RecordTable :=
  ⟨["#", "Key", "Value", "Comments"],
   [(1, ⟨"Certifications 1", "AWS Solutions Architect", cert_context⟩),
    (2, ⟨"Certifications 2", "Azure Data Engineer", cert_context⟩),
    (3, ⟨"Technical Proficiency", "", proficiency_context⟩)]⟩

/-! ## Shared lemmas -/

/-- Numbering does not change the number of rows. -/
theorem numberRows_length (l : List ExtractionRecord) :
    ∀ n, (numberRows n l).length = l.length := by
  induction l with
  | nil => intro n; rfl
  | cons r rest ih => intro n; simp [numberRows, ih]

/-- Stripping the numbers recovers the input records in input order. -/
theorem numberRows_map_snd (l : List ExtractionRecord) :
    ∀ n, (numberRows n l).map Prod.snd = l := by
  induction l with
  | nil => intro n; rfl
  | cons r rest ih => intro n; simp [numberRows, ih]

/-- The sequence numbers are exactly `n, n+1, ...` in order. -/
theorem numberRows_map_fst (l : List ExtractionRecord) :
    ∀ n, (numberRows n l).map Prod.fst = List.range' n l.length := by
  induction l with
  | nil => intro n; rfl
  | cons r rest ih =>
      intro n
      simp only [numberRows, List.map_cons, List.length_cons, List.range'_succ, ih]

/-- The certification section always contains the two fixture records. -/
theorem extract_certifications_length (text : String) :
    2 ≤ (extract_certifications text).length := by
  unfold extract_certifications
  cases reSearch pmpRE text <;> cases reSearch safeRE text <;> simp

/-- When the CLI pattern variant's table builder succeeds, the table has one
row per input record. -/
theorem doc_buildTable_ok_length (records : List ExtractionRecord) (t : RecordTable)
    (h : doc_buildTable records = Except.ok t) : t.rows.length = records.length := by
  cases records with
  | nil => simp [doc_buildTable, pandasLenMismatch] at h
  | cons r rest =>
      have h2 : (⟨["#", "Key", "Value", "Comments"],
                  numberRows 1 (r :: rest)⟩ : RecordTable) = t := Except.ok.inj h
      rw [← h2]
      exact numberRows_length (r :: rest) 1

/-- Unfolding the AI reader's fold: the accumulator distributes over the
spec-side page concatenation. -/
theorem ai_reader_foldl (pages : List String) :
    ∀ acc : String,
      pages.foldl (fun text p => if p ≠ "" then text ++ p ++ "\n" else text) acc =
        acc ++ specPageConcat pages := by
  induction pages with
  | nil => intro acc; simp [specPageConcat]
  | cons p rest ih =>
      intro acc
      rw [List.foldl_cons, ih]
      by_cases hp : p = ""
      · subst hp; simp [specPageConcat]
      · simp [specPageConcat, hp, String.append_assoc]

/-- Unfolding the CLI pattern-variant reader's fold. -/
theorem doc_reader_foldl (pages : List String) :
    ∀ acc : String,
      pages.foldl (fun text p => text ++ p) acc = acc ++ specDirectConcat pages := by
  induction pages with
  | nil => intro acc; simp [specDirectConcat]
  | cons p rest ih => intro acc; simp [specDirectConcat, ih, String.append_assoc]

/-! ## Claims -/

/-- Claim C1 (code bug in the source): on a document consisting of the
spec's example sentence, the personal-info rules emit exactly the First
Name, Last Name and Date of Birth records — no Birth City or Birth State
record is produced, because the pattern `born on [^,]+, in (\w+), (\w+)`
can never span the comma inside the matched date "March 15, 1989". -/
theorem C1_personal_info_on_example :
    extract_personal_info vijaySentence =
      Except.ok [⟨"First Name", "Vijay", ""⟩, ⟨"Last Name", "Kumar", ""⟩,
                 ⟨"Date of Birth", "15-Mar-89", ""⟩] := by
  rfl

/-- Claim C2, counterexample: on a document where the date-of-birth pattern
matches but the captured date does not conform to `'<Month> <day>, <year>'`,
the whole personal-info extraction raises the strptime `ValueError` instead
of contributing no record. -/
theorem C2_counterexample :
    extract_personal_info "born on Foo 15, 1989" = Except.error strptimeError := by
  rfl

/-- Claim C2 as amended: when a date-bearing rule's pattern matches, a
captured date that parses under the strict grammar is reformatted as
`DD-Mon-YY` and emitted; a captured date that does not parse makes the
whole extraction raise `ValueError` (no record from any rule), rather than
silently contributing nothing. -/
theorem C2_date_rule_behaviour (text : String) :
    (∀ m : REMatch, reSearch dobRE text = some m →
       ∀ d : PyDate, strptime_BdY (m.group 1) = some d →
         ∃ l, extract_personal_info text = Except.ok l ∧
           (⟨"Date of Birth", strftime_dby d, ""⟩ : ExtractionRecord) ∈ l) ∧
    (∀ m : REMatch, reSearch dobRE text = some m →
       strptime_BdY (m.group 1) = none →
         extract_personal_info text = Except.error strptimeError) ∧
    (∀ m : REMatch, reSearch firstJobRE text = some m →
       strptime_BdY (m.group 1) = none →
         extract_professional_info text = Except.error strptimeError) := by
  refine ⟨?_, ?_, ?_⟩
  · intro m hm d hd
    have h1 : extract_personal_info text =
        Except.ok (nameRule text ++ [⟨"Date of Birth", strftime_dby d, ""⟩] ++
                   birthRule text ++ ageRule text ++ bloodRule text ++ natRule text) := by
      simp only [extract_personal_info, dobRule, hm, hd]
    exact ⟨_, h1, by simp⟩
  · intro m hm hnone
    simp only [extract_personal_info, dobRule, hm, hnone]
  · intro m hm hnone
    simp only [extract_professional_info, firstJobRule, hm, hnone]

/-- Claim C2, witness: the conforming example date is reformatted to
`15-Mar-89`, and two concrete non-conforming captures raise. -/
theorem C2_witness :
    reSearch dobRE vijaySentence =
      some ⟨"born on March 15, 1989", [(1, "March 15, 1989")]⟩ ∧
    strptime_BdY "March 15, 1989" = some ⟨1989, 3, 15⟩ ∧
    strftime_dby ⟨1989, 3, 15⟩ = "15-Mar-89" ∧
    (∃ l, extract_personal_info vijaySentence = Except.ok l ∧
       (⟨"Date of Birth", strftime_dby ⟨1989, 3, 15⟩, ""⟩ : ExtractionRecord) ∈ l) ∧
    extract_personal_info "born on Foo 15, 1989" = Except.error strptimeError ∧
    extract_professional_info firstJobBadDateText = Except.error strptimeError :=
  ⟨by decide, by decide, by decide,
   (C2_date_rule_behaviour vijaySentence).1
     ⟨"born on March 15, 1989", [(1, "March 15, 1989")]⟩ (by decide)
     ⟨1989, 3, 15⟩ (by decide),
   (C2_date_rule_behaviour "born on Foo 15, 1989").2.1
     ⟨"born on Foo 15, 1989", [(1, "Foo 15, 1989")]⟩ (by decide) (by decide),
   (C2_date_rule_behaviour firstJobBadDateText).2.2
     ⟨firstJobBadDateText, [(1, "Foo 1, 2010"), (2, "Dev"), (3, "100")]⟩
     (by decide) (by decide)⟩

/-- Claim C3, counterexample: on the empty document text the pattern
pipeline builds a table with 3 rows, not an empty one. -/
theorem C3_counterexample : rowCountOf (doc_process_document "") = some 3 := by
  rfl

/-- Claim C3 as amended: on the empty document text no pattern-derived
record is emitted, the pipeline does not fail, and the resulting table
consists of exactly the three unconditional fixture records. -/
theorem C3_empty_text_table :
    doc_process_document "" =
      Except.ok ⟨["#", "Key", "Value", "Comments"],
        [(1, ⟨"Certifications 1", "AWS Solutions Architect", cert_context⟩),
         (2, ⟨"Certifications 2", "Azure Data Engineer", cert_context⟩),
         (3, ⟨"Technical Proficiency", "", proficiency_context⟩)]⟩ := by
  rfl

/-- Claim C4, counterexample: in the CLI AI variant, with the use-AI flag
set and the empty document text, a remote call is still made and its records
are returned — the empty-text guard exists only in the form variant. -/
theorem C4_counterexample :
    (ai_process_document true "" (GeminiOutcome.success [⟨"k", "v", ""⟩])).2 = 1 ∧
    (ai_process_document true "" (GeminiOutcome.success [⟨"k", "v", ""⟩])).1.rows ≠ [] :=
  ⟨rfl, by decide⟩

/-- Claim C4 as amended: a false use-AI flag yields an empty result with no
remote call in both AI variants, and the form variant additionally skips
the remote call on empty text; the CLI AI variant consults only the flag. -/
theorem C4_flag_and_empty_text_guards (text : String) (o : GeminiOutcome) :
    (ai_process_document false text o).2 = 0 ∧
    (ai_process_document false text o).1.rows = [] ∧
    (∀ b : Bool, (app_process_document b "" o).2 = 0 ∧
                 (app_process_document b "" o).1.rows = []) ∧
    (app_process_document false text o).2 = 0 ∧
    (app_process_document false text o).1.rows = [] := by
  refine ⟨rfl, rfl, ?_, ?_, ?_⟩
  · intro b
    cases b
    · exact ⟨rfl, rfl⟩
    · exact ⟨rfl, rfl⟩
  · rfl
  · rfl

/-- Claim C5 (code bug in the source): two successive runs in one session
on distinct texts — the second run returns the records cached for the first
text, because the underscore-prefixed `_self` parameter is excluded from
the `st.cache_data` key, so the key never depends on the input text. -/
theorem C5_cache_ignores_input :
    (cached_extract_with_gemini gTest
       ((cached_extract_with_gemini gTest none "Document A").2) "Document B").1 =
      gTest "Document A" ∧
    (cached_extract_with_gemini gTest
       ((cached_extract_with_gemini gTest none "Document A").2) "Document B").1 ≠
      gTest "Document B" :=
  ⟨rfl, by decide⟩

/-- Claim C6, counterexample: on the empty record list the CLI pattern
variant's table builder raises the pandas column-length error instead of
producing a zero-row table, and the AI variants produce a table with no
columns at all, not the fixed four. -/
theorem C6_counterexample :
    doc_buildTable [] = Except.error pandasLenMismatch ∧
    ai_buildTable [] = ⟨[], []⟩ :=
  ⟨rfl, rfl⟩

/-- Claim C6 as amended: for every nonempty input list of N records, both
table builders produce the fixed four columns and exactly the N input
records in input order numbered 1..N; the empty list raises in the CLI
pattern variant and yields a column-less empty table in the AI variants. -/
theorem C6_table_builder (records : List ExtractionRecord) (h : records ≠ []) :
    doc_buildTable records =
      Except.ok ⟨["#", "Key", "Value", "Comments"], numberRows 1 records⟩ ∧
    ai_buildTable records = ⟨["#", "Key", "Value", "Comments"], numberRows 1 records⟩ ∧
    (numberRows 1 records).length = records.length ∧
    (numberRows 1 records).map Prod.snd = records ∧
    (numberRows 1 records).map Prod.fst = List.range' 1 records.length := by
  have hne : records.isEmpty = false := by
    cases records with
    | nil => exact absurd rfl h
    | cons a l => rfl
  refine ⟨?_, ?_, numberRows_length records 1, numberRows_map_snd records 1,
          numberRows_map_fst records 1⟩
  · simp [doc_buildTable, hne]
  · simp [ai_buildTable, hne]

/-- Claim C6, witness: the builders on a concrete one-record list. -/
theorem C6_witness :
    ([(⟨"First Name", "Vijay", ""⟩ : ExtractionRecord)] ≠ []) ∧
    (doc_buildTable [⟨"First Name", "Vijay", ""⟩] =
       Except.ok ⟨["#", "Key", "Value", "Comments"],
                  numberRows 1 [⟨"First Name", "Vijay", ""⟩]⟩ ∧
     ai_buildTable [⟨"First Name", "Vijay", ""⟩] =
       ⟨["#", "Key", "Value", "Comments"], numberRows 1 [⟨"First Name", "Vijay", ""⟩]⟩ ∧
     (numberRows 1 [(⟨"First Name", "Vijay", ""⟩ : ExtractionRecord)]).length =
       [(⟨"First Name", "Vijay", ""⟩ : ExtractionRecord)].length ∧
     (numberRows 1 [(⟨"First Name", "Vijay", ""⟩ : ExtractionRecord)]).map Prod.snd =
       [⟨"First Name", "Vijay", ""⟩] ∧
     (numberRows 1 [(⟨"First Name", "Vijay", ""⟩ : ExtractionRecord)]).map Prod.fst =
       List.range' 1 [(⟨"First Name", "Vijay", ""⟩ : ExtractionRecord)].length) :=
  ⟨by decide, C6_table_builder [⟨"First Name", "Vijay", ""⟩] (by decide)⟩

/-- Claim C7: each of the three handled failure modes of the model-backed
extractor (client construction, remote call, response parsing) yields the
empty record list with an error reported, at most one remote call is ever
made (no retry), and the pipeline still builds the empty table and skips
the export rather than crashing. -/
theorem C7_failure_modes (text : String) (o : GeminiOutcome)
    (h : o.isFailure = true) :
    (extract_with_gemini o).records = [] ∧
    (extract_with_gemini o).errorReport.isSome = true ∧
    (extract_with_gemini o).remoteCalls ≤ 1 ∧
    (ai_process_document true text o).1 = ⟨[], []⟩ ∧
    ai_export_step (ai_process_document true text o).1 = ⟨false, true⟩ := by
  cases o with
  | clientFail e => exact ⟨rfl, rfl, Nat.zero_le 1, rfl, rfl⟩
  | apiError e => exact ⟨rfl, rfl, Nat.le_refl 1, rfl, rfl⟩
  | jsonError e => exact ⟨rfl, rfl, Nat.le_refl 1, rfl, rfl⟩
  | otherError e => exact ⟨rfl, rfl, Nat.le_refl 1, rfl, rfl⟩
  | success rs => simp [GeminiOutcome.isFailure] at h

/-- Claim C7, witness: a concrete API-level failure. -/
theorem C7_witness :
    (GeminiOutcome.apiError "503 UNAVAILABLE").isFailure = true ∧
    ((extract_with_gemini (GeminiOutcome.apiError "503 UNAVAILABLE")).records = [] ∧
     (extract_with_gemini (GeminiOutcome.apiError "503 UNAVAILABLE")).errorReport.isSome = true ∧
     (extract_with_gemini (GeminiOutcome.apiError "503 UNAVAILABLE")).remoteCalls ≤ 1 ∧
     (ai_process_document true "Some document text"
        (GeminiOutcome.apiError "503 UNAVAILABLE")).1 = ⟨[], []⟩ ∧
     ai_export_step (ai_process_document true "Some document text"
        (GeminiOutcome.apiError "503 UNAVAILABLE")).1 = ⟨false, true⟩) :=
  ⟨rfl, C7_failure_modes "Some document text" (GeminiOutcome.apiError "503 UNAVAILABLE") rfl⟩

/-- Claim C8, counterexample: the CLI pattern variant's export step has no
emptiness guard — it writes a file even for an empty table. -/
theorem C8_counterexample :
    (doc_export_step ⟨["#", "Key", "Value", "Comments"], []⟩).fileWritten = true ∧
    (doc_export_step ⟨["#", "Key", "Value", "Comments"], []⟩).reportedNoData = false :=
  ⟨rfl, rfl⟩

/-- Claim C8 as amended: the AI variants' export step skips an empty table
with a "no data" report and writes exactly the non-empty ones; the CLI
pattern variant's export step writes unconditionally, but every table its
own pipeline produces has at least the 3 unconditional fixture rows. -/
theorem C8_export_guards :
    (∀ df : RecordTable, df.rows = [] → ai_export_step df = ⟨false, true⟩) ∧
    (∀ df : RecordTable, df.rows ≠ [] → ai_export_step df = ⟨true, false⟩) ∧
    (∀ (text : String) (t : RecordTable),
       doc_process_document text = Except.ok t → 3 ≤ t.rows.length) := by
  refine ⟨?_, ?_, ?_⟩
  · intro df hdf
    simp [ai_export_step, hdf]
  · intro df hdf
    simp [ai_export_step, hdf]
  · intro text t h
    unfold doc_process_document at h
    cases hp : extract_personal_info text with
    | error e => rw [hp] at h; exact absurd h (by simp)
    | ok personal_data =>
        rw [hp] at h
        cases hq : extract_professional_info text with
        | error e => rw [hq] at h; exact absurd h (by simp)
        | ok professional_data =>
            rw [hq] at h
            have hlen := doc_buildTable_ok_length _ _ h
            have hc := extract_certifications_length text
            have htech : (extract_technical_proficiency text).length = 1 := rfl
            rw [hlen]
            simp only [List.length_append]
            omega

/-- Claim C8, witness: the guards on concrete empty and one-row tables, and
the fixture lower bound on the concrete empty-text pipeline run. -/
theorem C8_witness :
    (c8EmptyTable.rows = [] ∧ ai_export_step c8EmptyTable = ⟨false, true⟩) ∧
    (c8OneTable.rows ≠ [] ∧ ai_export_step c8OneTable = ⟨true, false⟩) ∧
    (doc_process_document "" = Except.ok c8FixtureTable ∧
     3 ≤ c8FixtureTable.rows.length) :=
  ⟨⟨rfl, C8_export_guards.1 c8EmptyTable rfl⟩,
   ⟨by decide, C8_export_guards.2.1 c8OneTable (by decide)⟩,
   ⟨by rfl, C8_export_guards.2.2 "" c8FixtureTable (by rfl)⟩⟩

/-- Claim C9, counterexample: the CLI pattern variant's Text Reader
concatenates page texts with no separator, not with a newline after each
page. -/
theorem C9_counterexample :
    (doc_extract_text_from_pdf (some ["page one", "page two"])).1 = "page onepage two" ∧
    (doc_extract_text_from_pdf (some ["page one", "page two"])).1 ≠
      specPageConcat ["page one", "page two"] :=
  ⟨rfl, by decide⟩

/-- Claim C9 as amended: the AI variants' reader produces each nonempty
page's text in page order with a newline appended after each page; the CLI
pattern variant's reader concatenates the page texts directly with no
separator; on a read failure every reader reports and returns the empty
string instead of raising. -/
theorem C9_reader_behaviour :
    (∀ pages : List String,
       (ai_extract_text_from_pdf (some pages)).1 = specPageConcat pages) ∧
    (∀ pages : List String,
       (doc_extract_text_from_pdf (some pages)).1 = specDirectConcat pages) ∧
    ai_extract_text_from_pdf none = ("", true) ∧
    doc_extract_text_from_pdf none = ("", true) := by
  refine ⟨?_, ?_, rfl, rfl⟩
  · intro pages
    have hfold := ai_reader_foldl pages ""
    simpa [ai_extract_text_from_pdf, String.empty_append] using hfold
  · intro pages
    have hfold := doc_reader_foldl pages ""
    simpa [doc_extract_text_from_pdf, String.empty_append] using hfold

/-- Claim C10: in the CLI AI variant with the use-AI flag off, the
rule-based fallback returns the empty list, the pipeline builds the empty
table with no remote call, and the export step skips writing and reports
"no data extracted". -/
theorem C10_no_ai_empty_run (text : String) (o : GeminiOutcome) :
    rule_based_extraction text = [] ∧
    ai_process_document false text o = (⟨[], []⟩, 0) ∧
    ai_export_step (ai_process_document false text o).1 = ⟨false, true⟩ :=
  ⟨rfl, rfl, rfl⟩
